import Mathlib

/-!
# Practice-Progress: verification of the session/goal store and tier policy

Shallow embedding of the client-side store of the practice-logging
application (source: `src/src/App.jsx` and `src/unnamed/part_001`; the two
files agree on every function modelled here, `part_001` being the newer
multi-athlete revision that the claims cite).

Backend interaction is modelled explicitly: every operation takes the
results the backend would return as parameters and produces the list of
requests it issued (in issue order, since all sub-requests are awaited
sequentially), the new local state, and the surfaced error.  Timestamps
are integers; `err.message` strings are the error values the gateway
returns.
-/

namespace PracticeProgress

/-- One of the four fixed focus/skill tags (`FOCUS_OPTIONS`). -/
inductive Skill where
  | hitting
  | pitching
  | fielding
  | conditioning
deriving DecidableEq, Repr, Fintype

/-- The iteration order of the four skills: `FOCUS_OPTIONS` order, which is
also the insertion order of the `goalsMap` object and hence the
`Object.entries` order used by `saveGoal`. -/
def skillOrder : List Skill := [.hitting, .pitching, .fielding, .conditioning]

/-- A profile row as the client sees it: `is_pro` and `pro_expires_at` may be
absent; timestamps are integers (milliseconds since epoch). -/
structure Profile where
  id : String
  is_pro : Option Bool
  pro_expires_at : Option Int
deriving DecidableEq, Repr

/-- The derivation `const isPro = profile?.is_pro && (!profile?.pro_expires_at ||
new Date(profile.pro_expires_at) > new Date());` — the entitlement
derivation, evaluated against the current time `now`. -/
def isProOf (p : Profile) (now : Int) : Bool :=
  (p.is_pro.getD false) &&
    (match p.pro_expires_at with
     | none => true
     | some t => decide (t > now))

/-- The spec's pure tier-policy function, written from its words:
`isEntitled(profile) = profile.is_pro AND (profile.pro_expires_at is absent
OR profile.pro_expires_at > now)`. -/
def isEntitledSpec (p : Profile) (now : Int) : Bool :=
  (p.is_pro.getD false) &&
    (p.pro_expires_at.isNone || p.pro_expires_at.any (fun t => decide (t > now)))

/-- An athlete row (fields the store consults). -/
structure Athlete where
  id : String
  name : String
deriving DecidableEq, Repr

/-- A session row in backend shape (`duration_minutes`, nullable
`note`/`reflection`). -/
structure SessionRow where
  id : String
  athlete_id : String
  date : String
  duration_minutes : Nat
  focus : List Skill
  note : Option String
  reflection : Option String
deriving DecidableEq, Repr

/-- A session in display shape, as held in the in-memory `sessions` list. -/
structure DisplaySession where
  id : String
  date : String
  duration : Nat
  focus : List Skill
  note : String
  reflection : String
deriving DecidableEq, Repr

/-- The row-shape-to-display-shape mapping used both by the loaders and by
`handleQuickLog`'s prepend: rename `duration_minutes`, default null
note/reflection to the empty string (`s.note || ''`). -/
def toDisplay (s : SessionRow) : DisplaySession :=
  { id := s.id
    date := s.date
    duration := s.duration_minutes
    focus := s.focus
    note := s.note.getD ""
    reflection := s.reflection.getD "" }

/-- A goal row returned by the backend. -/
structure GoalRow where
  id : String
  athlete_id : String
  skill : Skill
  text : String
  is_active : Bool
deriving DecidableEq, Repr

/-- A local goal entry `{ id, text, isActive }`. -/
structure GoalEntry where
  id : String
  text : String
  isActive : Bool
deriving DecidableEq, Repr

/-- The local goals state: the `goalsMap` object mapping each of the four
fixed skill tags to `null` or a `GoalEntry`. -/
structure GoalsMap where
  hitting : Option GoalEntry
  pitching : Option GoalEntry
  fielding : Option GoalEntry
  conditioning : Option GoalEntry
deriving DecidableEq, Repr

def GoalsMap.get (m : GoalsMap) : Skill → Option GoalEntry
  | .hitting => m.hitting
  | .pitching => m.pitching
  | .fielding => m.fielding
  | .conditioning => m.conditioning

def GoalsMap.set (m : GoalsMap) (s : Skill) (v : Option GoalEntry) : GoalsMap :=
  match s with
  | .hitting => { m with hitting := v }
  | .pitching => { m with pitching := v }
  | .fielding => { m with fielding := v }
  | .conditioning => { m with conditioning := v }

/-- A drill-frequency row of the read-only `drill_frequency` view. -/
structure DrillFreqRow where
  drill_id : String
  times_used : Nat
deriving DecidableEq, Repr

/-- The backend requests the store can issue, in the order fields carry the
data the code sends.  A request list records the exact sequence of awaited
calls of one store operation. -/
inductive Request where
  | selectAthletes (limit : Nat)
  | selectSessions (athleteId : String) (limit : Nat)
  | selectGoalsActive (athleteId : String)
  | selectDrillFrequency (athleteId : String) (limit : Nat)
  | insertSession (row : SessionRow)
  | insertSessionDrill (sessionId : String) (drillId : String)
  | insertGoal (athleteId : String) (skill : Skill) (text : String)
  | updateGoalInactive (goalId : String)
  | updateGoalText (goalId : String) (text : String)
  | deleteGoal (goalId : String)
deriving DecidableEq, Repr

/-- Is the request a DELETE? (Only goals are ever deleted in this version.) -/
def Request.isDelete : Request → Bool
  | .deleteGoal _ => true
  | _ => false

/-- Is the request an insert into `session_drills`? -/
def Request.isSessionDrillInsert : Request → Bool
  | .insertSessionDrill _ _ => true
  | _ => false

/-- Is the request a fetch of the `drill_frequency` view? -/
def Request.isDrillFrequencyFetch : Request → Bool
  | .selectDrillFrequency _ _ => true
  | _ => false

/-- Is the request a select on `sessions`? -/
def Request.isSessionsSelect : Request → Bool
  | .selectSessions _ _ => true
  | _ => false

/-! ## fetchProfile (Session/Identity Manager) -/

/-- What `response.json()` produced, when the fetch itself did not throw:
it threw (malformed body), parsed to something that is not an array, or
parsed to an array of profile rows. -/
inductive ProfileBody where
  | malformed
  | nonArray
  | arr (rows : List Profile)
deriving DecidableEq, Repr

/-- The outcome of the HTTP exchange of `fetchProfile`: either the fetch
threw (network failure, or the 5-second abort fired), or a response with a
status code and a body arrived. -/
inductive ProfileFetch where
  | thrown
  | response (status : Nat) (body : ProfileBody)
deriving DecidableEq, Repr

/-- The fail-safe default profile `{ id: userId, is_pro: false }`. -/
def defaultProfile (userId : String) : Profile :=
  { id := userId, is_pro := some false, pro_expires_at := none }

/-- The function `fetchProfile(userId)`: any thrown error is caught and any body that is
not a non-empty array falls through to the default; the code logs
`response.status` but never branches on it
(`if (Array.isArray(data) && data.length > 0) setProfile(data[0]) else
setProfile({ id: userId, is_pro: false })`). -/
def fetchProfile (userId : String) (r : ProfileFetch) : Profile :=
  match r with
  | .thrown => defaultProfile userId
  | .response _status body =>
    match body with
    | .malformed => defaultProfile userId
    | .nonArray => defaultProfile userId
    | .arr [] => defaultProfile userId
    | .arr (p :: _) => p

/-! ## saveGoal (goal upsert/delete) -/

/-- The other skills' currently-active goal entries, in `Object.entries`
order: `Object.entries(goals).filter(([k, g]) => k !== skill && g?.isActive)`. -/
def otherActiveGoals (m : GoalsMap) (skill : Skill) : List GoalEntry :=
  skillOrder.filterMap fun k =>
    if k ≠ skill then
      (m.get k).bind fun g => if g.isActive then some g else none
    else none

/-- Mark every present entry of a skill other than `skill` inactive, as the
local mirror does after a free-tier insert
(`if (k !== skill && updatedGoals[k]) updatedGoals[k] = {...updatedGoals[k], isActive: false}`). -/
def deactivateEntry (o : Option GoalEntry) : Option GoalEntry :=
  o.map fun g => { g with isActive := false }

def deactivateOthers (m : GoalsMap) (skill : Skill) : GoalsMap :=
  { hitting := if Skill.hitting = skill then m.hitting else deactivateEntry m.hitting
    pitching := if Skill.pitching = skill then m.pitching else deactivateEntry m.pitching
    fielding := if Skill.fielding = skill then m.fielding else deactivateEntry m.fielding
    conditioning :=
      if Skill.conditioning = skill then m.conditioning else deactivateEntry m.conditioning }

/-- Number of skills whose local goal entry is active. -/
def GoalsMap.activeCount (m : GoalsMap) : Nat :=
  (skillOrder.filterMap fun k =>
    (m.get k).bind fun g => if g.isActive then some k else none).length

/-- The observable outcome of one `saveGoal` call: the requests issued (in
issue order), the goals state afterwards, the surfaced error, the
`editGoalText` field, and whether the editor sheet was closed
(`setShowGoalEdit(null)` ran). -/
structure SaveGoalOutcome where
  requests : List Request
  goals : GoalsMap
  error : Option String
  editGoalText : String
  closedEditor : Bool
deriving DecidableEq, Repr

/-- The operation `saveGoal(skill)`.  Backend behaviour is supplied as parameters:
`deleteRes`/`updateRes` are the error components of the delete/text-update
(consulted only on their branches), `deactRes` the results of the free-tier
deactivation updates (the code awaits these calls without destructuring
their result, so the parameter is received and never read), and `insertRes`
the result of the goal insert.  On a thrown (checked) error the catch block
sets the error message and the local state is left as it was. -/
def saveGoal (isPro : Bool) (athlete : Option Athlete) (goals : GoalsMap)
    (editGoalText : String) (error0 : Option String) (skill : Skill)
    (deleteRes : Option String) (updateRes : Option String)
    (deactRes : List (Option String)) (insertRes : Except String GoalRow) :
    SaveGoalOutcome :=
  match athlete with
  | none =>
    { requests := [], goals := goals, error := error0,
      editGoalText := editGoalText, closedEditor := false }
  | some ath =>
    if editGoalText = "" then
      match goals.get skill with
      | some g =>
        match deleteRes with
        | some e =>
          { requests := [.deleteGoal g.id], goals := goals, error := some e,
            editGoalText := editGoalText, closedEditor := false }
        | none =>
          { requests := [.deleteGoal g.id], goals := goals.set skill none,
            error := none, editGoalText := "", closedEditor := true }
      | none =>
        { requests := [], goals := goals.set skill none, error := none,
          editGoalText := "", closedEditor := true }
    else
      match goals.get skill with
      | some g =>
        match updateRes with
        | some e =>
          { requests := [.updateGoalText g.id editGoalText], goals := goals,
            error := some e, editGoalText := editGoalText, closedEditor := false }
        | none =>
          { requests := [.updateGoalText g.id editGoalText],
            goals := goals.set skill (some { g with text := editGoalText }),
            error := none, editGoalText := "", closedEditor := true }
      | none =>
        let deactReqs : List Request :=
          if isPro then []
          else (otherActiveGoals goals skill).map fun g => .updateGoalInactive g.id
        match insertRes with
        | .error e =>
          { requests := deactReqs ++ [.insertGoal ath.id skill editGoalText],
            goals := goals, error := some e,
            editGoalText := editGoalText, closedEditor := false }
        | .ok row =>
          let base := if isPro then goals else deactivateOthers goals skill
          { requests := deactReqs ++ [.insertGoal ath.id skill editGoalText],
            goals := base.set skill (some { id := row.id, text := row.text, isActive := true }),
            error := none, editGoalText := "", closedEditor := true }

/-! ## handleQuickLog (logging a practice) -/

/-- The logging-form fields. -/
structure QuickLogForm where
  logDate : String
  logDuration : Nat
  logFocus : List Skill
  logNote : String
  logReflection : String
  logDrills : List String
deriving DecidableEq, Repr

/-- The form defaults the success path resets to: today's date, 30 minutes,
empty focus set, empty note, empty reflection, empty drill set. -/
def defaultForm (todayStr : String) : QuickLogForm :=
  { logDate := todayStr, logDuration := 30, logFocus := [], logNote := "",
    logReflection := "", logDrills := [] }

/-- The sequential `for (const drillId of logDrills)` insert loop: one
`session_drills` insert per drill, each awaited before the next; the first
error throws out of the loop.  `results` pairs each attempted insert with
its error component (a missing entry counts as success).  Returns the
requests actually issued and the error that ended the loop, if any. -/
def runDrillInserts (sessionId : String) (drills : List String)
    (results : List (Option String)) : List Request × Option String :=
  match drills with
  | [] => ([], none)
  | d :: ds =>
    match results.headD none with
    | some e => ([.insertSessionDrill sessionId d], some e)
    | none =>
      let rest := runDrillInserts sessionId ds results.tail
      (.insertSessionDrill sessionId d :: rest.1, rest.2)

/-- The `sessions` row `handleQuickLog` sends: the form's date, duration,
focus set, with empty note/reflection normalised to null
(`note: logNote || null`).  The `id` is server-assigned and absent from the
request payload, modelled as the empty string. -/
def sessionRowOf (ath : Athlete) (form : QuickLogForm) : SessionRow :=
  { id := "", athlete_id := ath.id, date := form.logDate,
    duration_minutes := form.logDuration, focus := form.logFocus,
    note := if form.logNote = "" then none else some form.logNote,
    reflection :=
      if form.logReflection = "" then none else some form.logReflection }

/-- The observable outcome of one `handleQuickLog` call. -/
structure QuickLogOutcome where
  requests : List Request
  sessions : List DisplaySession
  form : QuickLogForm
  error : Option String
  showQuickLog : Bool
deriving DecidableEq, Repr

/-- The operation `handleQuickLog()`.  Guard: `if (logFocus.length === 0 || !athlete)
return;`.  Then a `sessions` insert (empty note/reflection normalised to
null), then — only when Pro and drills were selected — the sequential
drill-insert loop, then on success the prepend of the display-shaped
returned row and the form reset.  A thrown error sets the message and
leaves sessions and form untouched. -/
def handleQuickLog (isPro : Bool) (athlete : Option Athlete)
    (form : QuickLogForm) (sessions : List DisplaySession)
    (error0 : Option String) (showQuickLog0 : Bool) (todayStr : String)
    (sessionRes : Except String SessionRow)
    (drillResults : List (Option String)) : QuickLogOutcome :=
  match athlete with
  | none =>
    { requests := [], sessions := sessions, form := form, error := error0,
      showQuickLog := showQuickLog0 }
  | some ath =>
    if form.logFocus = [] then
      { requests := [], sessions := sessions, form := form, error := error0,
        showQuickLog := showQuickLog0 }
    else
      let row := sessionRowOf ath form
      match sessionRes with
      | .error e =>
        { requests := [.insertSession row], sessions := sessions, form := form,
          error := some e, showQuickLog := showQuickLog0 }
      | .ok newSession =>
        if isPro ∧ form.logDrills ≠ [] then
          let loop := runDrillInserts newSession.id form.logDrills drillResults
          match loop.2 with
          | some e =>
            { requests := .insertSession row :: loop.1, sessions := sessions,
              form := form, error := some e, showQuickLog := showQuickLog0 }
          | none =>
            { requests := .insertSession row :: loop.1,
              sessions := toDisplay newSession :: sessions,
              form := defaultForm todayStr, error := none, showQuickLog := false }
        else
          { requests := [.insertSession row],
            sessions := toDisplay newSession :: sessions,
            form := defaultForm todayStr, error := none, showQuickLog := false }

/-! ## loadAthleteData and loadData (initial load) -/

/-- The per-athlete slice of the store the loaders mutate. -/
structure AthleteState where
  sessions : List DisplaySession
  goals : GoalsMap
  drillFrequency : List DrillFreqRow
  error : Option String
  loading : Bool
deriving DecidableEq, Repr

/-- The empty goals map the loader starts from
(`FOCUS_OPTIONS.forEach(opt => { goalsMap[opt.id] = null; })`). -/
def emptyGoalsMap : GoalsMap :=
  { hitting := none, pitching := none, fielding := none, conditioning := none }

/-- Build the goals map from the fetched active-goal rows: later rows for
the same skill overwrite earlier ones (`goalsMap[g.skill] = ...`). -/
def buildGoalsMap (rows : List GoalRow) : GoalsMap :=
  rows.foldl
    (fun m g => m.set g.skill (some { id := g.id, text := g.text, isActive := true }))
    emptyGoalsMap

/-- The loader `loadAthleteData(athleteId)`: fetch up to 50 sessions (date descending),
then active goals, then — Pro only — up to 10 drill-frequency rows whose
error component is discarded (`const { data: drillData } = ...;
setDrillFrequency(drillData || [])`).  A sessions or goals error aborts the
rest, surfaces the message and keeps the state written so far; `finally`
clears `loading`. -/
def loadAthleteData (isPro : Bool) (athleteId : String) (st : AthleteState)
    (sessRes : Except String (List SessionRow))
    (goalRes : Except String (List GoalRow))
    (freqRes : Except String (List DrillFreqRow)) :
    AthleteState × List Request :=
  match sessRes with
  | .error e =>
    ({ st with error := some e, loading := false },
     [.selectSessions athleteId 50])
  | .ok sessionData =>
    let st1 := { st with sessions := sessionData.map toDisplay }
    match goalRes with
    | .error e =>
      ({ st1 with error := some e, loading := false },
       [.selectSessions athleteId 50, .selectGoalsActive athleteId])
    | .ok goalData =>
      let st2 := { st1 with goals := buildGoalsMap goalData }
      if isPro then
        let drills := match freqRes with
          | .ok l => l
          | .error _ => []
        ({ st2 with drillFrequency := drills, loading := false },
         [.selectSessions athleteId 50, .selectGoalsActive athleteId,
          .selectDrillFrequency athleteId 10])
      else
        ({ st2 with loading := false },
         [.selectSessions athleteId 50, .selectGoalsActive athleteId])

/-- The observable outcome of one `loadData` call. -/
structure LoadOutcome where
  requests : List Request
  athletes : List Athlete
  currentAthlete : Option Athlete
  storage : Option String
  showAddAthlete : Bool
  astate : AthleteState
deriving DecidableEq, Repr

/-- The athlete-selection step of `loadData`: prefer the athlete whose id is
the one remembered in `localStorage` if present among the fetched ones,
else the first fetched athlete
(`const currentAthlete = savedAthlete || athleteData[0]`). -/
def selectCurrent (first : Athlete) (roster : List Athlete)
    (saved : Option String) : Athlete :=
  ((saved.bind fun i => roster.find? fun a => a.id == i).getD first)

/-- The loader `loadData()`: clear the error, fetch non-archived athletes limited to 10
(Pro) or 1 (free); an error surfaces; an empty roster flips to the
add-athlete prompt and stops; otherwise select the current athlete, write
its id back to `localStorage`, and run `loadAthleteData`.  `storage0` /
`athletes0` / `athlete0` / `showAdd0` are the values carried over when a
branch leaves them untouched. -/
def loadData (isPro : Bool) (storage0 : Option String) (st0 : AthleteState)
    (athletes0 : List Athlete) (athlete0 : Option Athlete) (showAdd0 : Bool)
    (athRes : Except String (List Athlete))
    (sessRes : Except String (List SessionRow))
    (goalRes : Except String (List GoalRow))
    (freqRes : Except String (List DrillFreqRow)) : LoadOutcome :=
  let st := { st0 with error := none, loading := true }
  let athReq := Request.selectAthletes (if isPro then 10 else 1)
  match athRes with
  | .error e =>
    { requests := [athReq], athletes := athletes0, currentAthlete := athlete0,
      storage := storage0, showAddAthlete := showAdd0,
      astate := { st with error := some e, loading := false } }
  | .ok [] =>
    { requests := [athReq], athletes := athletes0, currentAthlete := athlete0,
      storage := storage0, showAddAthlete := true,
      astate := { st with loading := false } }
  | .ok (a :: rest) =>
    let current := selectCurrent a (a :: rest) storage0
    let loaded := loadAthleteData isPro current.id st sessRes goalRes freqRes
    { requests := athReq :: loaded.2, athletes := a :: rest,
      currentAthlete := some current, storage := some current.id,
      showAddAthlete := showAdd0, astate := loaded.1 }

/-! ## Helper lemmas -/

/-- Writing `null` to a skill slot that already holds `null` leaves the
goals map unchanged. -/
theorem GoalsMap.set_none_of_get_none (m : GoalsMap) (s : Skill)
    (h : m.get s = none) : m.set s none = m := by
  cases s <;> cases m <;> simp_all [GoalsMap.get, GoalsMap.set]

/-- A deactivated slot never contributes an active goal. -/
theorem deactivateEntry_bind_none (o : Option GoalEntry) (k : Skill) :
    ((deactivateEntry o).bind fun g => if g.isActive then some k else none)
      = none := by
  cases o <;> simp [deactivateEntry]

/-! ## C1 — tier policy -/

/-- C1: the entitlement derivation `isPro` agrees with the spec's pure
function `isEntitled`, and it is true exactly when `is_pro` is present and
true and the expiry is absent or strictly later than now; in every other
case (absent or false `is_pro`, expiry at or before now) it is false. -/
theorem isPro_matches_spec (p : Profile) (now : Int) :
    isProOf p now = isEntitledSpec p now ∧
    (isProOf p now = true ↔
      p.is_pro = some true ∧
        (p.pro_expires_at = none ∨
          ∃ t, p.pro_expires_at = some t ∧ t > now)) := by
  obtain ⟨i, b, e⟩ := p
  cases b <;> cases e <;>
    simp [isProOf, isEntitledSpec, Option.getD, Option.any]

/-! ## C8 — saveGoal with empty text and no existing goal is a no-op -/

/-- C8: calling `saveGoal` with empty submitted text for a skill whose local
entry is `null` issues no backend request at all (in particular no delete)
and leaves the goals state unchanged. -/
theorem saveGoal_empty_text_noop (isPro : Bool) (ath : Athlete)
    (goals : GoalsMap) (error0 : Option String) (skill : Skill)
    (delRes updRes : Option String) (deactRes : List (Option String))
    (insertRes : Except String GoalRow) (out : SaveGoalOutcome)
    (hNone : goals.get skill = none)
    (hout : out = saveGoal isPro (some ath) goals "" error0 skill delRes
      updRes deactRes insertRes) :
    out.requests = [] ∧ out.goals = goals := by
  subst hout
  simp [saveGoal, hNone, GoalsMap.set_none_of_get_none goals skill hNone]

/-- Witness for C8 at a concrete input: an empty map, skill `hitting`. -/
theorem saveGoal_empty_text_noop_witness :
    (saveGoal false (some ⟨"a1", "Ann"⟩) emptyGoalsMap "" none .hitting
        none none [] (.error "unused")).requests = [] ∧
    (saveGoal false (some ⟨"a1", "Ann"⟩) emptyGoalsMap "" none .hitting
        none none [] (.error "unused")).goals = emptyGoalsMap :=
  saveGoal_empty_text_noop false ⟨"a1", "Ann"⟩ emptyGoalsMap none .hitting
    none none [] (.error "unused") _ (by decide) rfl

/-! ## C2 — free-tier single-active-goal invariant -/

/-- C2: on the free tier, saving a non-empty goal for a skill that has none
issues one `is_active = false` update per other currently-active goal,
sequentially and all before the insert of the new active goal (the request
list is the issue order), and the resulting local goals state has exactly
one active goal — the one for the saved skill — however many were active
before. -/
theorem saveGoal_free_tier_single_active (ath : Athlete) (goals : GoalsMap)
    (text : String) (error0 : Option String) (skill : Skill)
    (delRes updRes : Option String) (deactRes : List (Option String))
    (row : GoalRow) (out : SaveGoalOutcome)
    (hText : text ≠ "") (hNone : goals.get skill = none)
    (hout : out = saveGoal false (some ath) goals text error0 skill delRes
      updRes deactRes (.ok row)) :
    out.requests =
        ((otherActiveGoals goals skill).map fun g => Request.updateGoalInactive g.id)
          ++ [.insertGoal ath.id skill text]
      ∧ out.goals.activeCount = 1
      ∧ out.goals.get skill = some { id := row.id, text := row.text, isActive := true }
      ∧ (∀ k, k ≠ skill → ∀ g, out.goals.get k = some g → g.isActive = false) := by
  subst hout
  obtain ⟨gh, gp, gf, gc⟩ := goals
  cases skill
  all_goals
    simp only [GoalsMap.get] at hNone
    subst hNone
    refine ⟨by simp [saveGoal, hText, GoalsMap.get], ?_, ?_, ?_⟩
    · simp [saveGoal, hText, GoalsMap.activeCount, skillOrder, GoalsMap.set,
        GoalsMap.get, deactivateOthers, deactivateEntry_bind_none]
    · simp [saveGoal, hText, GoalsMap.set, GoalsMap.get, deactivateOthers]
    · intro k hk g hg
      cases k <;>
        simp_all [saveGoal, hText, GoalsMap.set, GoalsMap.get,
          deactivateOthers, deactivateEntry]
      all_goals
        obtain ⟨a, -, h2⟩ := hg
        subst h2
        rfl

/-- Witness for C2: two other goals active (pitching, fielding), saving a
new hitting goal deactivates both and leaves exactly one active goal. -/
theorem saveGoal_free_tier_single_active_witness :
    (saveGoal false (some ⟨"a1", "Ann"⟩)
        ⟨none, some ⟨"g1", "p", true⟩, some ⟨"g2", "f", true⟩, none⟩
        "hit goal" none .hitting none none [] (.ok ⟨"g9", "a1", .hitting, "hit goal", true⟩)).goals.activeCount = 1
    ∧ (saveGoal false (some ⟨"a1", "Ann"⟩)
        ⟨none, some ⟨"g1", "p", true⟩, some ⟨"g2", "f", true⟩, none⟩
        "hit goal" none .hitting none none [] (.ok ⟨"g9", "a1", .hitting, "hit goal", true⟩)).requests
      = [.updateGoalInactive "g1", .updateGoalInactive "g2",
         .insertGoal "a1" .hitting "hit goal"] := by
  have h := saveGoal_free_tier_single_active ⟨"a1", "Ann"⟩
    ⟨none, some ⟨"g1", "p", true⟩, some ⟨"g2", "f", true⟩, none⟩
    "hit goal" none .hitting none none []
    ⟨"g9", "a1", .hitting, "hit goal", true⟩ _ (by decide) rfl rfl
  exact ⟨h.2.1, by decide⟩

/-! ## C9 — deactivation-update results are discarded -/

/-- C9: in the free-tier new-goal branch, the outcome is independent of the
results of the deactivation updates (the code never reads them): even when
a deactivation returns an error, no error is surfaced, the loop still
issues every deactivation and the insert still proceeds, and the local
state still marks every other goal inactive. -/
theorem saveGoal_deactivation_result_discarded (ath : Athlete)
    (goals : GoalsMap) (text : String) (error0 : Option String)
    (skill : Skill) (delRes updRes : Option String)
    (deactRes deactRes' : List (Option String)) (row : GoalRow)
    (out : SaveGoalOutcome)
    (hText : text ≠ "") (hNone : goals.get skill = none)
    (hout : out = saveGoal false (some ath) goals text error0 skill delRes
      updRes deactRes (.ok row)) :
    saveGoal false (some ath) goals text error0 skill delRes updRes deactRes
        (.ok row)
      = saveGoal false (some ath) goals text error0 skill delRes updRes
        deactRes' (.ok row)
      ∧ out.error = none
      ∧ out.requests =
        ((otherActiveGoals goals skill).map fun g => Request.updateGoalInactive g.id)
          ++ [.insertGoal ath.id skill text]
      ∧ (∀ k, k ≠ skill → ∀ g, out.goals.get k = some g → g.isActive = false) := by
  subst hout
  obtain ⟨gh, gp, gf, gc⟩ := goals
  cases skill
  all_goals
    simp only [GoalsMap.get] at hNone
    subst hNone
    refine ⟨rfl, by simp [saveGoal, hText, GoalsMap.get],
      by simp [saveGoal, hText, GoalsMap.get], ?_⟩
    intro k hk g hg
    cases k <;>
      simp_all [saveGoal, hText, GoalsMap.set, GoalsMap.get, deactivateOthers,
        deactivateEntry]
    all_goals
      obtain ⟨a, -, h2⟩ := hg
      subst h2
      rfl

/-- Witness for C9: a deactivation error `"boom"` is swallowed — the
outcome equals the all-success outcome and no error is surfaced. -/
theorem saveGoal_deactivation_result_discarded_witness :
    saveGoal false (some ⟨"a1", "Ann"⟩)
        ⟨none, some ⟨"g1", "p", true⟩, none, none⟩ "hit goal" none .hitting
        none none [some "boom"] (.ok ⟨"g9", "a1", .hitting, "hit goal", true⟩)
      = saveGoal false (some ⟨"a1", "Ann"⟩)
        ⟨none, some ⟨"g1", "p", true⟩, none, none⟩ "hit goal" none .hitting
        none none [] (.ok ⟨"g9", "a1", .hitting, "hit goal", true⟩)
    ∧ (saveGoal false (some ⟨"a1", "Ann"⟩)
        ⟨none, some ⟨"g1", "p", true⟩, none, none⟩ "hit goal" none .hitting
        none none [some "boom"]
        (.ok ⟨"g9", "a1", .hitting, "hit goal", true⟩)).error = none := by
  have h := saveGoal_deactivation_result_discarded ⟨"a1", "Ann"⟩
    ⟨none, some ⟨"g1", "p", true⟩, none, none⟩ "hit goal" none .hitting
    none none [some "boom"] [] ⟨"g9", "a1", .hitting, "hit goal", true⟩ _
    (by decide) rfl rfl
  exact ⟨h.1, h.2.1⟩

/-! ## C3 — profile-fetch fail-safe -/

/-- Counterexample to C3 as stated: `fetchProfile` never consults the
response status (`response.status` is only logged), so a non-2xx response
whose body happens to be a non-empty array yields that array's first row,
not the default free-tier profile.  Concretely, a 500 response carrying
`[{id: "evil", is_pro: true}]` produces a Pro profile. -/
theorem fetchProfile_non2xx_not_default :
    fetchProfile "u1"
        (.response 500 (.arr [{ id := "evil", is_pro := some true,
                                pro_expires_at := none }]))
      = { id := "evil", is_pro := some true, pro_expires_at := none }
    ∧ fetchProfile "u1"
        (.response 500 (.arr [{ id := "evil", is_pro := some true,
                                pro_expires_at := none }]))
      ≠ defaultProfile "u1" := by
  constructor
  · rfl
  · decide

/-- C3 (amended): on every thrown failure (network error, the 5-second
timeout/abort) and on every response whose body is malformed, not an
array, or an empty array, `fetchProfile` propagates no error and sets the
default profile `{id: userId, is_pro: false}`; the HTTP status code is
never consulted, so the outcome for a fixed body is the same at every
status. -/
theorem fetchProfile_failsafe (userId : String) (r : ProfileFetch)
    (s s' : Nat) (b : ProfileBody)
    (h : r = .thrown ∨
      ∃ st, r = .response st .malformed ∨ r = .response st .nonArray ∨
        r = .response st (.arr [])) :
    fetchProfile userId r = defaultProfile userId
    ∧ fetchProfile userId (.response s b) = fetchProfile userId (.response s' b) := by
  constructor
  · rcases h with h | ⟨st, h | h | h⟩ <;> subst h <;> rfl
  · cases b with
    | malformed => rfl
    | nonArray => rfl
    | arr rows => cases rows <;> rfl

/-- Witness for the amended C3: a timed-out fetch yields the free-tier
default. -/
theorem fetchProfile_failsafe_witness :
    fetchProfile "u1" .thrown = defaultProfile "u1"
    ∧ fetchProfile "u1" (.response 200 .nonArray)
      = fetchProfile "u1" (.response 503 .nonArray) :=
  fetchProfile_failsafe "u1" .thrown 200 503 .nonArray (.inl rfl)

/-! ## Drill-loop lemmas -/

/-- If the first `k` drill inserts succeed and the `(k+1)`-st fails with
`e`, the loop issues exactly the first `k+1` inserts, in list order, and
ends with error `e`. -/
theorem runDrillInserts_first_error (sid : String) (e : String) :
    ∀ (k : Nat) (ds : List String) (rest : List (Option String)),
      k < ds.length →
      runDrillInserts sid ds (List.replicate k none ++ some e :: rest)
        = ((ds.take (k + 1)).map (Request.insertSessionDrill sid), some e) := by
  intro k
  induction k with
  | zero =>
    intro ds rest hk
    match ds with
    | d :: ds' => simp [runDrillInserts]
  | succ n ih =>
    intro ds rest hk
    match ds with
    | d :: ds' =>
      have := ih ds' rest (by simpa using hk)
      simp [runDrillInserts, List.replicate_succ, this]

/-- When every supplied result is a success, the loop issues one insert per
drill and ends without error. -/
theorem runDrillInserts_all_ok (sid : String) :
    ∀ (ds : List String) (results : List (Option String)),
      (∀ o ∈ results, o = none) →
      runDrillInserts sid ds results
        = (ds.map (Request.insertSessionDrill sid), none) := by
  intro ds
  induction ds with
  | nil => intro results _; simp [runDrillInserts]
  | cons d ds' ih =>
    intro results h
    have hhead : results.head?.getD none = none := by
      cases results with
      | nil => rfl
      | cons o os => exact h o (by simp)
    have htail : ∀ o ∈ results.tail, o = none := by
      intro o ho
      exact h o (List.mem_of_mem_tail ho)
    simp [runDrillInserts, hhead, ih results.tail htail]

/-! ## C4 — partial-failure semantics of practice logging with drills -/

/-- C4: when Pro with drills selected, the SessionDrill inserts follow the
Session insert strictly sequentially (the request list is the issue
order); if the insert for the drill at index `k` fails, its error is the
surfaced message, the requests are exactly the Session insert followed by
the first `k+1` drill inserts (so the Session and the first `k` drills
remain on the backend), and no delete of any kind is issued. -/
theorem handleQuickLog_partial_failure (ath : Athlete) (form : QuickLogForm)
    (sessions : List DisplaySession) (error0 : Option String)
    (show0 : Bool) (today : String) (row : SessionRow) (k : Nat) (e : String)
    (rest : List (Option String)) (out : QuickLogOutcome)
    (hFocus : form.logFocus ≠ []) (hk : k < form.logDrills.length)
    (hout : out = handleQuickLog true (some ath) form sessions error0 show0
      today (.ok row) (List.replicate k none ++ some e :: rest)) :
    out.error = some e
    ∧ out.requests =
        .insertSession (sessionRowOf ath form)
          :: (form.logDrills.take (k + 1)).map (Request.insertSessionDrill row.id)
    ∧ (∀ r ∈ out.requests, r.isDelete = false)
    ∧ out.sessions = sessions := by
  subst hout
  have hne : form.logDrills ≠ [] := by
    intro h
    rw [h] at hk
    exact Nat.not_lt_zero k hk
  have hloop := runDrillInserts_first_error row.id e k form.logDrills rest hk
  refine ⟨?_, ?_, ?_, ?_⟩
  · simp [handleQuickLog, hFocus, hne, hloop]
  · simp [handleQuickLog, hFocus, hne, hloop]
  · intro r hr
    simp [handleQuickLog, hFocus, hne, hloop] at hr
    rcases hr with h | h
    · subst h; rfl
    · have h2 : r ∈ List.map (Request.insertSessionDrill row.id) form.logDrills :=
        List.mem_of_mem_take h
      obtain ⟨d, -, h3⟩ := List.mem_map.mp h2
      subst h3; rfl
  · simp [handleQuickLog, hFocus, hne, hloop]

/-- Witness for C4, the spec's own scenario: drills
`["tee-work", "soft-toss"]` with the second insert failing — the Session
insert and exactly the two drill-insert attempts are on the wire (the
first succeeded, the second errored), the error is surfaced, nothing is
deleted, and the sessions list is untouched. -/
theorem handleQuickLog_partial_failure_witness :
    (handleQuickLog true (some ⟨"a1", "Ann"⟩)
        ⟨"2025-01-10", 45, [.hitting], "", "", ["tee-work", "soft-toss"]⟩
        [] none true "2025-01-10"
        (.ok ⟨"s7", "a1", "2025-01-10", 45, [.hitting], none, none⟩)
        [none, some "insert failed"]).error = some "insert failed"
    ∧ (handleQuickLog true (some ⟨"a1", "Ann"⟩)
        ⟨"2025-01-10", 45, [.hitting], "", "", ["tee-work", "soft-toss"]⟩
        [] none true "2025-01-10"
        (.ok ⟨"s7", "a1", "2025-01-10", 45, [.hitting], none, none⟩)
        [none, some "insert failed"]).requests
      = [.insertSession ⟨"", "a1", "2025-01-10", 45, [.hitting], none, none⟩,
         .insertSessionDrill "s7" "tee-work",
         .insertSessionDrill "s7" "soft-toss"]
    ∧ (handleQuickLog true (some ⟨"a1", "Ann"⟩)
        ⟨"2025-01-10", 45, [.hitting], "", "", ["tee-work", "soft-toss"]⟩
        [] none true "2025-01-10"
        (.ok ⟨"s7", "a1", "2025-01-10", 45, [.hitting], none, none⟩)
        [none, some "insert failed"]).sessions = [] := by
  have h := handleQuickLog_partial_failure ⟨"a1", "Ann"⟩
    ⟨"2025-01-10", 45, [.hitting], "", "", ["tee-work", "soft-toss"]⟩
    [] none true "2025-01-10"
    ⟨"s7", "a1", "2025-01-10", 45, [.hitting], none, none⟩ 1 "insert failed"
    [] _ (by decide) (by decide) rfl
  exact ⟨h.1, by decide, h.2.2.2⟩

/-! ## C10 — drill failure leaves local state untouched -/

/-- C10: if a drill insert fails after the Session insert succeeded, the
in-memory sessions list is left completely unchanged (the new Session is
not prepended even though its insert is on the wire) and the logging-form
fields are not reset, so local state diverges from the backend until the
next full load. -/
theorem handleQuickLog_drill_failure_keeps_local_state (ath : Athlete)
    (form : QuickLogForm) (sessions : List DisplaySession)
    (error0 : Option String) (show0 : Bool) (today : String)
    (row : SessionRow) (drillResults : List (Option String)) (e : String)
    (out : QuickLogOutcome)
    (hFocus : form.logFocus ≠ []) (hDrills : form.logDrills ≠ [])
    (hErr : (runDrillInserts row.id form.logDrills drillResults).2 = some e)
    (hout : out = handleQuickLog true (some ath) form sessions error0 show0
      today (.ok row) drillResults) :
    out.sessions = sessions
    ∧ out.form = form
    ∧ out.error = some e
    ∧ Request.insertSession (sessionRowOf ath form) ∈ out.requests := by
  subst hout
  refine ⟨?_, ?_, ?_, ?_⟩ <;> simp [handleQuickLog, hFocus, hDrills, hErr]

/-- Witness for C10: one drill whose insert fails — sessions and form stay
exactly as they were while the session insert is already on the wire. -/
theorem handleQuickLog_drill_failure_keeps_local_state_witness :
    (handleQuickLog true (some ⟨"a1", "Ann"⟩)
        ⟨"2025-01-10", 45, [.hitting], "n", "r", ["tee-work"]⟩
        [⟨"s1", "2025-01-09", 30, [.fielding], "", ""⟩] none true "2025-01-10"
        (.ok ⟨"s7", "a1", "2025-01-10", 45, [.hitting], some "n", some "r"⟩)
        [some "drill fail"]).sessions
      = [⟨"s1", "2025-01-09", 30, [.fielding], "", ""⟩]
    ∧ (handleQuickLog true (some ⟨"a1", "Ann"⟩)
        ⟨"2025-01-10", 45, [.hitting], "n", "r", ["tee-work"]⟩
        [⟨"s1", "2025-01-09", 30, [.fielding], "", ""⟩] none true "2025-01-10"
        (.ok ⟨"s7", "a1", "2025-01-10", 45, [.hitting], some "n", some "r"⟩)
        [some "drill fail"]).form
      = ⟨"2025-01-10", 45, [.hitting], "n", "r", ["tee-work"]⟩
    ∧ (handleQuickLog true (some ⟨"a1", "Ann"⟩)
        ⟨"2025-01-10", 45, [.hitting], "n", "r", ["tee-work"]⟩
        [⟨"s1", "2025-01-09", 30, [.fielding], "", ""⟩] none true "2025-01-10"
        (.ok ⟨"s7", "a1", "2025-01-10", 45, [.hitting], some "n", some "r"⟩)
        [some "drill fail"]).error = some "drill fail" := by
  have h := handleQuickLog_drill_failure_keeps_local_state ⟨"a1", "Ann"⟩
    ⟨"2025-01-10", 45, [.hitting], "n", "r", ["tee-work"]⟩
    [⟨"s1", "2025-01-09", 30, [.fielding], "", ""⟩] none true "2025-01-10"
    ⟨"s7", "a1", "2025-01-10", 45, [.hitting], some "n", some "r"⟩
    [some "drill fail"] "drill fail" _ (by decide) (by decide) rfl rfl
  exact ⟨h.1, h.2.1, h.2.2.1⟩

/-! ## C6 — successful practice log postcondition -/

/-- C6: when the Session insert and every drill insert succeed,
`handleQuickLog` prepends exactly one entry at the head of the sessions
list, in display shape (duration taken from `duration_minutes`,
note/reflection defaulted to the empty string when the returned row has
them null), issues no fetch of sessions, surfaces no error, and resets
every logging-form field to its default (today's date, 30 minutes, empty
focus set, empty note, empty reflection, empty drill set). -/
theorem handleQuickLog_success_postcondition (isPro : Bool) (ath : Athlete)
    (form : QuickLogForm) (sessions : List DisplaySession)
    (error0 : Option String) (show0 : Bool) (today : String)
    (row : SessionRow) (drillResults : List (Option String))
    (out : QuickLogOutcome)
    (hFocus : form.logFocus ≠ [])
    (hOk : ∀ o ∈ drillResults, o = none)
    (hout : out = handleQuickLog isPro (some ath) form sessions error0 show0
      today (.ok row) drillResults) :
    out.sessions =
        { id := row.id, date := row.date, duration := row.duration_minutes,
          focus := row.focus, note := row.note.getD "",
          reflection := row.reflection.getD "" } :: sessions
    ∧ (∀ r ∈ out.requests, r.isSessionsSelect = false)
    ∧ out.form =
        { logDate := today, logDuration := 30, logFocus := [],
          logNote := "", logReflection := "", logDrills := [] }
    ∧ out.error = none := by
  subst hout
  have hloop := runDrillInserts_all_ok row.id form.logDrills drillResults hOk
  by_cases hd : isPro ∧ form.logDrills ≠ []
  · refine ⟨by simp [handleQuickLog, hFocus, hd, hloop, toDisplay], ?_,
      by simp [handleQuickLog, hFocus, hd, hloop, defaultForm],
      by simp [handleQuickLog, hFocus, hd, hloop]⟩
    intro r hr
    simp [handleQuickLog, hFocus, hd, hloop] at hr
    rcases hr with h | h
    · subst h; rfl
    · obtain ⟨d, -, h3⟩ := h
      subst h3; rfl
  · refine ⟨by simp [handleQuickLog, hFocus, hd, toDisplay], ?_,
      by simp [handleQuickLog, hFocus, hd, defaultForm],
      by simp [handleQuickLog, hFocus, hd]⟩
    intro r hr
    simp [handleQuickLog, hFocus, hd] at hr
    subst hr; rfl

/-- Witness for C6: Pro log with one drill, all inserts succeeding, a
returned row with null note/reflection — one display-shaped entry is
prepended, the form is reset, no error. -/
theorem handleQuickLog_success_postcondition_witness :
    (handleQuickLog true (some ⟨"a1", "Ann"⟩)
        ⟨"2025-01-10", 45, [.hitting], "", "", ["tee-work"]⟩
        [⟨"s1", "2025-01-09", 30, [.fielding], "", ""⟩] (some "old") true
        "2025-01-11"
        (.ok ⟨"s7", "a1", "2025-01-10", 45, [.hitting], none, none⟩)
        [none]).sessions
      = [⟨"s7", "2025-01-10", 45, [.hitting], "", ""⟩,
         ⟨"s1", "2025-01-09", 30, [.fielding], "", ""⟩]
    ∧ (handleQuickLog true (some ⟨"a1", "Ann"⟩)
        ⟨"2025-01-10", 45, [.hitting], "", "", ["tee-work"]⟩
        [⟨"s1", "2025-01-09", 30, [.fielding], "", ""⟩] (some "old") true
        "2025-01-11"
        (.ok ⟨"s7", "a1", "2025-01-10", 45, [.hitting], none, none⟩)
        [none]).form
      = ⟨"2025-01-11", 30, [], "", "", []⟩
    ∧ (handleQuickLog true (some ⟨"a1", "Ann"⟩)
        ⟨"2025-01-10", 45, [.hitting], "", "", ["tee-work"]⟩
        [⟨"s1", "2025-01-09", 30, [.fielding], "", ""⟩] (some "old") true
        "2025-01-11"
        (.ok ⟨"s7", "a1", "2025-01-10", 45, [.hitting], none, none⟩)
        [none]).error = none := by
  have h := handleQuickLog_success_postcondition true ⟨"a1", "Ann"⟩
    ⟨"2025-01-10", 45, [.hitting], "", "", ["tee-work"]⟩
    [⟨"s1", "2025-01-09", 30, [.fielding], "", ""⟩] (some "old") true
    "2025-01-11" ⟨"s7", "a1", "2025-01-10", 45, [.hitting], none, none⟩
    [none] _ (by decide) (by decide) rfl
  exact ⟨h.1, h.2.2.1, h.2.2.2⟩

/-! ## C5 — tier-gating never-property -/

/-- C5: with entitlement false at the moment of the action, `handleQuickLog`
issues no `session_drills` insert, the per-athlete load issues no
`drill_frequency` fetch and leaves the local drill-frequency state exactly
as it was (so it stays empty for free-tier users), and `loadData`'s
athlete query is limited to 1 row. -/
theorem free_tier_gating (ath : Option Athlete) (form : QuickLogForm)
    (sessions : List DisplaySession) (error0 : Option String) (show0 : Bool)
    (today : String) (sessionRes : Except String SessionRow)
    (drillResults : List (Option String)) (aid : String) (st : AthleteState)
    (sessRes : Except String (List SessionRow))
    (goalRes : Except String (List GoalRow))
    (freqRes : Except String (List DrillFreqRow)) (storage0 : Option String)
    (st0 : AthleteState) (athletes0 : List Athlete)
    (athlete0 : Option Athlete) (showAdd0 : Bool)
    (athRes : Except String (List Athlete)) :
    (∀ r ∈ (handleQuickLog false ath form sessions error0 show0 today
        sessionRes drillResults).requests, r.isSessionDrillInsert = false)
    ∧ (loadAthleteData false aid st sessRes goalRes freqRes).1.drillFrequency
        = st.drillFrequency
    ∧ (∀ r ∈ (loadAthleteData false aid st sessRes goalRes freqRes).2,
        r.isDrillFrequencyFetch = false)
    ∧ (loadData false storage0 st0 athletes0 athlete0 showAdd0 athRes sessRes
        goalRes freqRes).requests.head? = some (.selectAthletes 1) := by
  refine ⟨?_, ?_, ?_, ?_⟩
  · intro r hr
    cases ath with
    | none => simp [handleQuickLog] at hr
    | some a =>
      by_cases hf : form.logFocus = []
      · simp [handleQuickLog, hf] at hr
      · cases sessionRes with
        | error e =>
          simp [handleQuickLog, hf] at hr
          subst hr; rfl
        | ok row =>
          simp [handleQuickLog, hf] at hr
          subst hr; rfl
  · cases sessRes <;> cases goalRes <;> simp [loadAthleteData]
  · intro r hr
    cases sessRes with
    | error e =>
      simp [loadAthleteData] at hr
      subst hr; rfl
    | ok s =>
      cases goalRes with
      | error e =>
        simp [loadAthleteData] at hr
        rcases hr with h | h <;> subst h <;> rfl
      | ok g =>
        simp [loadAthleteData] at hr
        rcases hr with h | h <;> subst h <;> rfl
  · cases athRes with
    | error e => rfl
    | ok l => cases l <;> rfl

/-! ## C7 — current-athlete selection and persistence -/

/-- The lookup `find?` finds the selected athlete again when looking for its own id:
the selected athlete is always the first roster element bearing its id. -/
theorem find?_selectCurrent (a : Athlete) (rest : List Athlete)
    (saved : Option String) :
    (a :: rest).find? (fun x => x.id == (selectCurrent a (a :: rest) saved).id)
      = some (selectCurrent a (a :: rest) saved) := by
  cases saved with
  | none =>
    have hsel : selectCurrent a (a :: rest) none = a := rfl
    rw [hsel]
    exact List.find?_cons_of_pos _ (by simp)
  | some i =>
    cases h : (a :: rest).find? (fun x => x.id == i) with
    | none =>
      have hsel : selectCurrent a (a :: rest) (some i) = a := by
        simp [selectCurrent, h]
      rw [hsel]
      exact List.find?_cons_of_pos _ (by simp)
    | some c =>
      have hc := List.find?_some h
      have hceq : c.id = i := eq_of_beq hc
      have hsel : selectCurrent a (a :: rest) (some i) = c := by
        simp [selectCurrent, h]
      rw [hsel, hceq]
      exact h

/-- Re-running the selection with the just-persisted identifier selects the
same athlete: the choice is stable across a reload. -/
theorem selectCurrent_stable (a : Athlete) (rest : List Athlete)
    (saved : Option String) :
    selectCurrent a (a :: rest) (some (selectCurrent a (a :: rest) saved).id)
      = selectCurrent a (a :: rest) saved := by
  show ((some (selectCurrent a (a :: rest) saved).id).bind
      fun i => (a :: rest).find? fun x => x.id == i).getD a
    = selectCurrent a (a :: rest) saved
  rw [Option.some_bind, find?_selectCurrent]
  rfl

/-- C7: for a non-empty fetched roster, `loadData` selects the athlete whose
id matches the one remembered in durable storage when that id is present
in the roster, otherwise the first fetched athlete; in both cases the
chosen id is written back to storage, and a subsequent reload with the
same roster and the written-back storage selects the same athlete. -/
theorem loadData_current_athlete_selection (isPro isPro2 : Bool)
    (storage0 : Option String) (st0 st02 : AthleteState)
    (athletes0 athletes02 : List Athlete) (athlete0 athlete02 : Option Athlete)
    (showAdd0 showAdd02 : Bool) (a : Athlete) (rest : List Athlete)
    (sessRes sessRes2 : Except String (List SessionRow))
    (goalRes goalRes2 : Except String (List GoalRow))
    (freqRes freqRes2 : Except String (List DrillFreqRow)) (out : LoadOutcome)
    (hout : out = loadData isPro storage0 st0 athletes0 athlete0 showAdd0
      (.ok (a :: rest)) sessRes goalRes freqRes) :
    (∀ i c, storage0 = some i →
      (a :: rest).find? (fun x => x.id == i) = some c →
        out.currentAthlete = some c)
    ∧ (storage0 = none → out.currentAthlete = some a)
    ∧ (∀ i, storage0 = some i →
        (a :: rest).find? (fun x => x.id == i) = none →
          out.currentAthlete = some a)
    ∧ out.storage = out.currentAthlete.map Athlete.id
    ∧ (loadData isPro2 out.storage st02 athletes02 athlete02 showAdd02
        (.ok (a :: rest)) sessRes2 goalRes2 freqRes2).currentAthlete
      = out.currentAthlete := by
  subst hout
  refine ⟨?_, ?_, ?_, ?_, ?_⟩
  · intro i c hi hf
    subst hi
    simp [loadData, selectCurrent, hf]
  · intro h
    subst h
    simp [loadData, selectCurrent]
  · intro i hi hf
    subst hi
    simp [loadData, selectCurrent, hf]
  · simp [loadData]
  · simp only [loadData]
    rw [selectCurrent_stable]

/-- Witness for C7, in two scenarios over the roster `[a1, a2]`: with
`"a2"` remembered, the second athlete is selected and `"a2"` persisted (no
fallback to the first); with nothing remembered, the first athlete is
selected, `"a1"` persisted, and a simulated reload with the persisted
storage selects the same athlete again. -/
theorem loadData_current_athlete_selection_witness :
    (loadData false (some "a2") ⟨[], emptyGoalsMap, [], none, true⟩ [] none
        false (.ok [⟨"a1", "Ann"⟩, ⟨"a2", "Bea"⟩]) (.ok []) (.ok [])
        (.ok [])).currentAthlete = some ⟨"a2", "Bea"⟩
    ∧ (loadData false (some "a2") ⟨[], emptyGoalsMap, [], none, true⟩ [] none
        false (.ok [⟨"a1", "Ann"⟩, ⟨"a2", "Bea"⟩]) (.ok []) (.ok [])
        (.ok [])).storage = some "a2"
    ∧ (loadData false none ⟨[], emptyGoalsMap, [], none, true⟩ [] none
        false (.ok [⟨"a1", "Ann"⟩, ⟨"a2", "Bea"⟩]) (.ok []) (.ok [])
        (.ok [])).storage = some "a1"
    ∧ (loadData false (some "a1") ⟨[], emptyGoalsMap, [], none, true⟩ [] none
        false (.ok [⟨"a1", "Ann"⟩, ⟨"a2", "Bea"⟩]) (.ok []) (.ok [])
        (.ok [])).currentAthlete
      = (loadData false none ⟨[], emptyGoalsMap, [], none, true⟩ [] none
          false (.ok [⟨"a1", "Ann"⟩, ⟨"a2", "Bea"⟩]) (.ok []) (.ok [])
          (.ok [])).currentAthlete := by
  have h := loadData_current_athlete_selection false false (some "a2")
    ⟨[], emptyGoalsMap, [], none, true⟩ ⟨[], emptyGoalsMap, [], none, true⟩
    [] [] none none false false ⟨"a1", "Ann"⟩ [⟨"a2", "Bea"⟩]
    (.ok []) (.ok []) (.ok []) (.ok []) (.ok []) (.ok []) _ rfl
  have h2 := loadData_current_athlete_selection false false none
    ⟨[], emptyGoalsMap, [], none, true⟩ ⟨[], emptyGoalsMap, [], none, true⟩
    [] [] none none false false ⟨"a1", "Ann"⟩ [⟨"a2", "Bea"⟩]
    (.ok []) (.ok []) (.ok []) (.ok []) (.ok []) (.ok []) _ rfl
  exact ⟨h.1 "a2" ⟨"a2", "Bea"⟩ rfl (by decide), by decide, by decide,
    h2.2.2.2.2⟩

end PracticeProgress
